import Mathlib

/-!
Verification of the `Handshake` two-party one-shot synchronization primitive
(`src/lib.rs`). A `Handshake<T>` handle owns an `Arc<RwLock<Option<T>>>`
shared with exactly one sibling handle; the `Option<T>` inside the lock is
the Slot. Every operation takes the write (or read) lock, so each call is a
single atomic step on the Slot; we embed each operation as a pure function
from the Slot contents to an outcome together with the updated Slot
contents. Panics raised by the `assert!` calls in the source are modelled
as an explicit `panicked` outcome that leaves the Slot unchanged.

The source has no `impl Drop for Handshake` and never inspects the `Arc`
reference count, so dropping a handle has no observable effect on the Slot
and no operation can learn whether the sibling handle is still alive; this
is reflected by the operations not taking any peer-liveness input.
-/

namespace Handshake

/-- Outcome of `Handshake::try_push`, mirroring the Rust return type
`Result<Result<(), (Self, T)>, T>` together with the possibility that the
`assert!` in the body panics:
`ok` is `Ok(Ok(()))`, `handleBack v` is `Ok(Err((self, v)))` (the handle
returned to the caller together with the value), `canceledWith v` is
`Err(v)`, and `panicked` is an assertion failure. -/
inductive PushOutcome (T : Type) where
  | ok : PushOutcome T
  | handleBack : T → PushOutcome T
  | canceledWith : T → PushOutcome T
  | panicked : PushOutcome T
  deriving DecidableEq

/-- Outcome of `Handshake::try_pull`, mirroring the Rust return type
`Result<Result<T, Self>, Canceled>` together with a possible panic:
`got v` is `Ok(Ok(v))`, `notYet` is `Ok(Err(self))` (the handle returned
unconsumed), `canceled` is `Err(Canceled)`, and `panicked` is an assertion
failure. -/
inductive PullOutcome (T : Type) where
  | got : T → PullOutcome T
  | notYet : PullOutcome T
  | canceled : PullOutcome T
  | panicked : PullOutcome T
  deriving DecidableEq

/-- Outcome of `Handshake::join`, mirroring the Rust return type
`Result<Option<U>, Canceled>` together with a possible panic:
`combined u` is `Ok(Some(u))`, `pending` is `Ok(None)` (the
no-combined-result-yet outcome), `canceled` is `Err(Canceled)`. Note the
Rust type contains no `Self`, so `join` can never hand the handle back. -/
inductive JoinOutcome (U : Type) where
  | combined : U → JoinOutcome U
  | pending : JoinOutcome U
  | canceled : JoinOutcome U
  | panicked : JoinOutcome U
  deriving DecidableEq

/-- `Handshake::new`: the freshly allocated shared Slot
(`Arc<RwLock<Option<T>>>` built by `Default::default()`) starts empty. -/
def new {T : Type} : Option T := none

/-- `Handshake::try_push`: takes the write lock, asserts the Slot is empty
(panicking otherwise), writes the value with `common.replace(value)`,
consumes `self` via `std::mem::forget`, and returns `Ok(Ok(()))`. The
`Ok(Err(..))` and `Err(..)` branches of the return type are never built. -/
def try_push {T : Type} (slot : Option T) (v : T) : PushOutcome T × Option T :=
  if slot.isNone then
    (PushOutcome.ok, some v)
  else
    (PushOutcome.panicked, slot)

/-- `Handshake::try_pull`: takes the write lock, asserts the Slot is empty
(panicking otherwise — the assert message is the one copy-pasted from
`try_push`), then matches on `common.take()`: `Some(res)` gives
`Ok(Ok(res))` with the Slot emptied, `None` gives `Ok(Err(self))`. The
`match` below keeps the source's dead `Some` branch: the assert has just
established the Slot is empty, so `take()` can only return `None`. The
`Err(Canceled)` branch of the return type is never built. -/
def try_pull {T : Type} (slot : Option T) : PullOutcome T × Option T :=
  if slot.isNone then
    match slot with
    | some res => (PullOutcome.got res, none)
    | none => (PullOutcome.notYet, none)
  else
    (PullOutcome.panicked, slot)

/-- `Handshake::join`: `let Ok(other) = self.try_pull()? else { return
Err(Canceled); }; Ok(Some(f(other, value)))`. An inner `Ok(Ok(other))`
from `try_pull` yields `Ok(Some(f(other, value)))`; an inner `Ok(Err(self))`
hits the `let`-`else` arm and yields `Err(Canceled)`; an outer
`Err(Canceled)` is propagated by `?`; a panic propagates. The `Ok(None)`
(`pending`) outcome is never built by this body. -/
def join {T U : Type} (slot : Option T) (v : T) (f : T → T → U) :
    JoinOutcome U × Option T :=
  match try_pull slot with
  | (PullOutcome.got other, slot') => (JoinOutcome.combined (f other v), slot')
  | (PullOutcome.notYet, slot') => (JoinOutcome.canceled, slot')
  | (PullOutcome.canceled, slot') => (JoinOutcome.canceled, slot')
  | (PullOutcome.panicked, slot') => (JoinOutcome.panicked, slot')

/-- `Handshake::is_set`: takes the read lock and reports
`common.is_some()`; the Slot is not modified. -/
def is_set {T : Type} (slot : Option T) : Bool := slot.isSome

/-- `impl PartialEq for Handshake`: reads both handles' Slots and compares
the two `Option<T>` contents with `T`'s (derived, structural) equality. -/
def handshake_eq {T : Type} [DecidableEq T] (a b : Option T) : Bool :=
  decide (a = b)

/-- True exactly on the `try_push` outcome `Ok(Err((self, v)))` that hands
the handle back to the caller unconsumed. -/
def PushOutcome.returnsHandle {T : Type} : PushOutcome T → Bool
  | PushOutcome.handleBack _ => true
  | _ => false

/-- True exactly on the `try_pull` outcome `Ok(Err(self))` that hands the
handle back to the caller unconsumed. -/
def PullOutcome.returnsHandle {T : Type} : PullOutcome T → Bool
  | PullOutcome.notYet => true
  | _ => false

/-- The Rust return type of `join`, `Result<Option<U>, Canceled>`, has no
`Self` component, so no `join` outcome can hand the handle back. -/
def JoinOutcome.returnsHandle {U : Type} : JoinOutcome U → Bool
  | _ => false

/-- Lifecycle of one handle of a pair: `fresh` (the caller still owns it
and may operate on it), `consumed` (moved into a terminal operation), or
`dropped` (discarded by the caller without a terminal operation). -/
inductive HandleStatus where
  | fresh : HandleStatus
  | consumed : HandleStatus
  | dropped : HandleStatus
  deriving DecidableEq

/-- Which handle of the pair performs an operation. -/
inductive Side where
  | l : Side
  | r : Side
  deriving DecidableEq

/-- State of one `Handshake::new()` pair: the shared Slot contents and the
status of each handle, instrumented with ghost counters `writes` (values
ever written into the Slot) and `takes` (values ever taken out of it). -/
structure PairState (T : Type) where
  slot : Option T
  left : HandleStatus
  right : HandleStatus
  writes : Nat
  takes : Nat
  deriving DecidableEq

/-- State immediately after `Handshake::new()`: empty Slot, both handles
fresh, nothing written or taken yet. -/
def PairState.start {T : Type} : PairState T :=
  { slot := none, left := HandleStatus.fresh, right := HandleStatus.fresh,
    writes := 0, takes := 0 }

/-- Status of the handle on the given side. -/
def PairState.status {T : Type} (s : PairState T) : Side → HandleStatus
  | Side.l => s.left
  | Side.r => s.right

/-- Replace the status of the handle on the given side. -/
def PairState.setStatus {T : Type} (s : PairState T) :
    Side → HandleStatus → PairState T
  | Side.l, st => { s with left := st }
  | Side.r, st => { s with right := st }

/-- One non-faulting operation on a pair. A handle can be operated on only
while `fresh` (the Rust type moves it into every terminal operation).
Each constructor is keyed on the corresponding operation's outcome: an
operation whose outcome would be `panicked` contributes no step, so step
sequences are exactly the non-faulting executions. The ghost counter
`writes` increments on the one outcome that writes the Slot, and `takes`
increments on the outcomes that move a value out of the Slot. Dropping a
handle runs no user code (`Handshake` has no `Drop` impl), so it changes
only the handle's status. -/
inductive Step {T : Type} : PairState T → PairState T → Prop where
  | pushOk (s : PairState T) (side : Side) (v : T) (slot' : Option T)
      (hf : s.status side = HandleStatus.fresh)
      (hop : try_push s.slot v = (PushOutcome.ok, slot')) :
      Step s { s.setStatus side HandleStatus.consumed with
               slot := slot', writes := s.writes + 1 }
  | pullGot (s : PairState T) (side : Side) (v : T) (slot' : Option T)
      (hf : s.status side = HandleStatus.fresh)
      (hop : try_pull s.slot = (PullOutcome.got v, slot')) :
      Step s { s.setStatus side HandleStatus.consumed with
               slot := slot', takes := s.takes + 1 }
  | pullNotYet (s : PairState T) (side : Side) (slot' : Option T)
      (hf : s.status side = HandleStatus.fresh)
      (hop : try_pull s.slot = (PullOutcome.notYet, slot')) :
      Step s { s with slot := slot' }
  | joinCombined (s : PairState T) (side : Side) (v : T) (f : T → T → T)
      (u : T) (slot' : Option T)
      (hf : s.status side = HandleStatus.fresh)
      (hop : join s.slot v f = (JoinOutcome.combined u, slot')) :
      Step s { s.setStatus side HandleStatus.consumed with
               slot := slot', takes := s.takes + 1 }
  | joinPending (s : PairState T) (side : Side) (v : T) (f : T → T → T)
      (slot' : Option T)
      (hf : s.status side = HandleStatus.fresh)
      (hop : join s.slot v f = (JoinOutcome.pending, slot')) :
      Step s { s.setStatus side HandleStatus.consumed with slot := slot' }
  | joinCanceled (s : PairState T) (side : Side) (v : T) (f : T → T → T)
      (slot' : Option T)
      (hf : s.status side = HandleStatus.fresh)
      (hop : join s.slot v f = (JoinOutcome.canceled, slot')) :
      Step s { s.setStatus side HandleStatus.consumed with slot := slot' }
  | checkSet (s : PairState T) (side : Side)
      (hf : s.status side = HandleStatus.fresh) :
      Step s s
  | dropHandle (s : PairState T) (side : Side)
      (hf : s.status side = HandleStatus.fresh) :
      Step s (s.setStatus side HandleStatus.dropped)

/-- The states a pair can be in after any finite sequence of non-faulting
operations from construction. -/
def Reachable {T : Type} (s : PairState T) : Prop :=
  Relation.ReflTransGen Step PairState.start s

/-- `try_pull` never produces the `got` outcome: the assert (copy-pasted
from `try_push`) panics whenever the Slot is full, and after it passes the
Slot is empty so `common.take()` returns `None`. -/
theorem try_pull_fst_ne_got {T : Type} (slot : Option T) (v : T)
    (slot' : Option T) : try_pull slot ≠ (PullOutcome.got v, slot') := by
  cases slot <;> simp [try_pull]

/-- `join` never produces the `combined` outcome, since `try_pull` never
produces `got`. -/
theorem join_fst_ne_combined {T U : Type} (slot : Option T) (v : T)
    (f : T → T → U) (u : U) (slot' : Option T) :
    join slot v f ≠ (JoinOutcome.combined u, slot') := by
  cases slot <;> simp [join, try_pull]

/-- `join` never produces the `pending` (`Ok(None)`) outcome: the body
only builds `Ok(Some(..))` or `Err(Canceled)`. -/
theorem join_fst_ne_pending {T U : Type} (slot : Option T) (v : T)
    (f : T → T → U) (slot' : Option T) :
    join slot v f ≠ (JoinOutcome.pending, slot') := by
  cases slot <;> simp [join, try_pull]

/-- The inductive invariant of a pair: no value has ever been taken out of
the Slot, and the Slot is full exactly when exactly one write happened
(it is empty with no writes otherwise). -/
def Inv {T : Type} (s : PairState T) : Prop :=
  s.takes = 0 ∧
    ((s.writes = 0 ∧ s.slot = none) ∨ (s.writes = 1 ∧ s.slot.isSome = true))

theorem inv_start {T : Type} : Inv (PairState.start (T := T)) := by
  constructor
  · rfl
  · exact Or.inl ⟨rfl, rfl⟩

theorem setStatus_slot {T : Type} (s : PairState T) (side : Side)
    (st : HandleStatus) : (s.setStatus side st).slot = s.slot := by
  cases side <;> rfl

theorem setStatus_writes {T : Type} (s : PairState T) (side : Side)
    (st : HandleStatus) : (s.setStatus side st).writes = s.writes := by
  cases side <;> rfl

theorem setStatus_takes {T : Type} (s : PairState T) (side : Side)
    (st : HandleStatus) : (s.setStatus side st).takes = s.takes := by
  cases side <;> rfl

theorem inv_step {T : Type} (s s' : PairState T) (hs : Step s s')
    (hinv : Inv s) : Inv s' := by
  obtain ⟨htk, hwr⟩ := hinv
  cases hs with
  | pushOk side v slot' hf hop =>
      have hslot : s.slot = none := by
        cases h : s.slot with
        | none => rfl
        | some w => rw [h] at hop; simp [try_push] at hop
      have hslot' : slot' = some v := by
        rw [hslot] at hop; simp [try_push] at hop; exact hop.symm
      have hw0 : s.writes = 0 := by
        rcases hwr with ⟨h1, _⟩ | ⟨_, h2⟩
        · exact h1
        · rw [hslot] at h2; simp [Option.isSome] at h2
      constructor
      · simpa [setStatus_takes] using htk
      · refine Or.inr ⟨?_, ?_⟩
        · simp [setStatus_writes, hw0]
        · simp [hslot']
  | pullGot side v slot' hf hop =>
      exact absurd hop (try_pull_fst_ne_got s.slot v slot')
  | pullNotYet side slot' hf hop =>
      have hslot : s.slot = none := by
        cases h : s.slot with
        | none => rfl
        | some w => rw [h] at hop; simp [try_pull] at hop
      have hslot' : slot' = none := by
        rw [hslot] at hop; simp [try_pull] at hop; exact hop.symm
      have hw0 : s.writes = 0 := by
        rcases hwr with ⟨h1, _⟩ | ⟨_, h2⟩
        · exact h1
        · rw [hslot] at h2; simp [Option.isSome] at h2
      exact ⟨htk, Or.inl ⟨hw0, hslot'⟩⟩
  | joinCombined side v f u slot' hf hop =>
      exact absurd hop (join_fst_ne_combined s.slot v f u slot')
  | joinPending side v f slot' hf hop =>
      exact absurd hop (join_fst_ne_pending s.slot v f slot')
  | joinCanceled side v f slot' hf hop =>
      have hslot : s.slot = none := by
        cases h : s.slot with
        | none => rfl
        | some w => rw [h] at hop; simp [join, try_pull] at hop
      have hslot' : slot' = none := by
        rw [hslot] at hop; simp [join, try_pull] at hop; exact hop.symm
      have hw0 : s.writes = 0 := by
        rcases hwr with ⟨h1, _⟩ | ⟨_, h2⟩
        · exact h1
        · rw [hslot] at h2; simp [Option.isSome] at h2
      constructor
      · simpa [setStatus_takes] using htk
      · exact Or.inl (by simp [setStatus_writes, hw0, hslot'])
  | checkSet side hf =>
      exact ⟨htk, hwr⟩
  | dropHandle side hf =>
      constructor
      · simpa [setStatus_takes] using htk
      · rcases hwr with ⟨h1, h2⟩ | ⟨h1, h2⟩
        · exact Or.inl ⟨by simpa [setStatus_writes] using h1,
            by simpa [setStatus_slot] using h2⟩
        · exact Or.inr ⟨by simpa [setStatus_writes] using h1,
            by simpa [setStatus_slot] using h2⟩

theorem inv_reachable {T : Type} (s : PairState T) (h : Reachable s) :
    Inv s := by
  induction h with
  | refl => exact inv_start
  | tail hstep hlast ih => exact inv_step _ _ hlast ih

/-- Once the Slot holds a value, every later non-faulting step leaves that
value in place: each operation either panics on a full Slot or does not
touch the Slot at all. -/
theorem step_preserves_full {T : Type} (s s' : PairState T) (v : T)
    (hs : Step s s') (hfull : s.slot = some v) : s'.slot = some v := by
  cases hs with
  | pushOk side w slot' hf hop =>
      rw [hfull] at hop; simp [try_push] at hop
  | pullGot side w slot' hf hop =>
      exact absurd hop (try_pull_fst_ne_got s.slot w slot')
  | pullNotYet side slot' hf hop =>
      rw [hfull] at hop; simp [try_pull] at hop
  | joinCombined side w f u slot' hf hop =>
      exact absurd hop (join_fst_ne_combined s.slot w f u slot')
  | joinPending side w f slot' hf hop =>
      exact absurd hop (join_fst_ne_pending s.slot w f slot')
  | joinCanceled side w f slot' hf hop =>
      rw [hfull] at hop; simp [join, try_pull] at hop
  | checkSet side hf => exact hfull
  | dropHandle side hf => simpa [setStatus_slot] using hfull

theorem reach_preserves_full {T : Type} (s s' : PairState T) (v : T)
    (hr : Relation.ReflTransGen Step s s') (hfull : s.slot = some v) :
    s'.slot = some v := by
  induction hr with
  | refl => exact hfull
  | tail hstep hlast ih => exact step_preserves_full _ _ v hlast ih

/-- Claim C1: the claim says `join` on an empty Slot deposits the caller's
value and reports no combined result, and `join` on a full Slot takes the
peer's value, empties the Slot, and reports the combination. The code does
neither: evaluated at a fresh pair's empty Slot it reports `Err(Canceled)`
and deposits nothing, and evaluated at a full Slot it panics on the assert
inside `try_pull` instead of taking and combining. -/
theorem join_empty_cancels_and_full_panics_eval :
    join (none : Option Nat) 5 (fun a b => a + b) =
      (JoinOutcome.canceled, none) ∧
    join (some 3 : Option Nat) 5 (fun a b => a + b) =
      (JoinOutcome.panicked, some 3) :=
  ⟨rfl, rfl⟩

/-- Claim C2: the claim says that when both sides of a fresh pair each call
`join` once, exactly one call yields a combined result and the other yields
no-result-yet. Evaluating the code: the first `join` reports `Err(Canceled)`
and leaves the Slot empty, so the second `join` also reports
`Err(Canceled)` — neither side ever gets a combined result, contradicting
the claim (and the repository's own `join_test`). -/
theorem join_both_sides_canceled_eval :
    join (none : Option Nat) 1 (fun a b => a + b) =
      (JoinOutcome.canceled, none) ∧
    join (join (none : Option Nat) 1 (fun a b => a + b)).2 2
      (fun a b => a + b) = (JoinOutcome.canceled, none) :=
  ⟨rfl, rfl⟩

/-- Claim C3: the claim says that after a successful `try_push x`, a
`try_pull` on the sibling returns exactly `x` and empties the Slot.
Evaluating the code at `x = 42`: the push succeeds and fills the Slot, but
the sibling's `try_pull` then panics — `try_pull` asserts the Slot is
EMPTY (an assert copy-pasted from `try_push`, message included) before
looking at `common.take()`, so a full Slot is fatal and the value can never
be retrieved, contradicting the claim (and the repository's own
`push_pull_test`). -/
theorem push_then_pull_roundtrip_fails_eval :
    try_push (none : Option Nat) 42 = (PushOutcome.ok, some 42) ∧
    try_pull (some 42 : Option Nat) = (PullOutcome.panicked, some 42) :=
  ⟨rfl, rfl⟩

/-- Claim C4: the claim says that after one handle is dropped without
having deposited, the survivor's `try_pull` reports `Canceled`. In the
code, dropping a handle is a legal step that leaves the Slot untouched
(`Handshake` has no `Drop` impl and no operation reads the `Arc` count),
the survivor's `try_pull` still returns the unchanged handle
(`Ok(Err(self))`), and no input whatsoever makes `try_pull` report
`Canceled` — contradicting the claim (and the repository's own
`pull_cancel_test`). -/
theorem pull_after_peer_drop_still_not_yet :
    Step (PairState.start (T := Unit))
      ((PairState.start (T := Unit)).setStatus Side.l HandleStatus.dropped) ∧
    try_pull ((PairState.start (T := Unit)).setStatus Side.l
        HandleStatus.dropped).slot = (PullOutcome.notYet, none) ∧
    (∀ (slot : Option Unit), (try_pull slot).1 ≠ PullOutcome.canceled) := by
  refine ⟨Step.dropHandle PairState.start Side.l rfl, rfl, ?_⟩
  intro slot
  cases slot <;> simp [try_pull]

/-- Claim C5: in the reference implementation, `join` called with the Slot
empty reports an immediate cancellation fault: it returns `Err(Canceled)`,
deposits nothing (the Slot is still empty afterwards), and does not return
the no-result-yet outcome `Ok(None)`. -/
theorem join_on_empty_slot_cancels {T U : Type} (v : T) (f : T → T → U) :
    join (none : Option T) v f = (JoinOutcome.canceled, none) := by
  simp [join, try_pull]

/-- Claim C6: `try_push v` on an empty Slot writes `v`, makes the Slot
full (`is_set`), consumes the handle, and reports success — with no
assumption on the sibling handle's status, so it succeeds whether or not
the peer is alive — and the deposited value then stays in the Slot through
every later non-faulting step, i.e. until the pair is discarded (no
non-faulting operation of this code ever takes it out). -/
theorem try_push_empty_succeeds {T : Type} (s : PairState T) (v : T)
    (hslot : s.slot = none) (hl : s.left = HandleStatus.fresh) :
    try_push s.slot v = (PushOutcome.ok, some v) ∧
    is_set (some v) = true ∧
    Step s { s.setStatus Side.l HandleStatus.consumed with
             slot := some v, writes := s.writes + 1 } ∧
    (∀ s', Relation.ReflTransGen Step
        { s.setStatus Side.l HandleStatus.consumed with
          slot := some v, writes := s.writes + 1 } s' →
      s'.slot = some v) := by
  have hp : try_push s.slot v = (PushOutcome.ok, some v) := by
    rw [hslot]; rfl
  refine ⟨hp, rfl, Step.pushOk s Side.l v (some v) hl hp, ?_⟩
  intro s' hr
  exact reach_preserves_full _ s' v hr rfl

/-- Concrete pair state for the claim C6 witness: empty Slot, left handle
fresh, right handle already dropped. -/
def pushDemo : PairState Nat :=
  { slot := none, left := HandleStatus.fresh, right := HandleStatus.dropped,
    writes := 0, takes := 0 }

theorem try_push_empty_succeeds_witness :
    try_push pushDemo.slot 7 = (PushOutcome.ok, some 7) ∧
    is_set (some 7) = true ∧
    Step pushDemo { pushDemo.setStatus Side.l HandleStatus.consumed with
                    slot := some 7, writes := pushDemo.writes + 1 } ∧
    (∀ s', Relation.ReflTransGen Step
        { pushDemo.setStatus Side.l HandleStatus.consumed with
          slot := some 7, writes := pushDemo.writes + 1 } s' →
      s'.slot = some 7) :=
  try_push_empty_succeeds pushDemo 7 rfl rfl

/-- Claim C7: `try_push` into an already-full Slot hits the assert and
panics — the fatal fail-fast fault, not any of the recoverable return
values of the operation — and the Slot keeps its original value, so
nothing is overwritten. -/
theorem try_push_full_is_fatal {T : Type} (w v : T) :
    try_push (some w) v = (PushOutcome.panicked, some w) := by
  simp [try_push]

/-- Claim C8: `try_pull` on an empty Slot returns the handle to the caller
unconsumed (`Ok(Err(self))`) and leaves the Slot empty, and it is the only
operation that can return without consuming its handle: `try_push` never
builds its handle-returning outcome `Ok(Err((self, v)))`, and `join`'s
return type `Result<Option<U>, Canceled>` has no handle to return. -/
theorem try_pull_empty_returns_handle {T : Type} :
    try_pull (none : Option T) = (PullOutcome.notYet, none) ∧
    PullOutcome.returnsHandle (try_pull (none : Option T)).1 = true ∧
    (∀ (slot : Option T) (v : T),
      PushOutcome.returnsHandle (try_push slot v).1 = false) ∧
    (∀ (slot : Option T) (v : T) (f : T → T → T),
      JoinOutcome.returnsHandle (join slot v f).1 = false) := by
  refine ⟨rfl, rfl, ?_, ?_⟩
  · intro slot v
    cases slot <;> simp [try_push, PushOutcome.returnsHandle]
  · intro slot v f
    cases h : (join slot v f).1 <;> simp [JoinOutcome.returnsHandle]

/-- Claim C9: along every non-faulting execution of a pair (steps cover
`try_push`, `try_pull`, `join`, `is_set` and dropping a handle), at most
one value is ever written into the Slot; and from any reachable state in
which a value has been taken out of the Slot, the Slot is empty in that
state and in every state reachable from it — once taken, it never refills. -/
theorem slot_lifetime_invariant {T : Type} (s : PairState T)
    (h : Reachable s) :
    s.writes ≤ 1 ∧
    (0 < s.takes →
      ∀ s', Relation.ReflTransGen Step s s' → s'.slot = none) := by
  obtain ⟨htk, hwr⟩ := inv_reachable s h
  constructor
  · rcases hwr with ⟨h1, _⟩ | ⟨h1, _⟩ <;> omega
  · intro hpos
    exfalso
    omega

theorem slot_lifetime_invariant_witness :
    (PairState.start (T := Nat)).writes ≤ 1 ∧
    (0 < (PairState.start (T := Nat)).takes →
      ∀ s', Relation.ReflTransGen Step (PairState.start (T := Nat)) s' →
        s'.slot = none) :=
  slot_lifetime_invariant PairState.start Relation.ReflTransGen.refl

/-- Claim C10: handle equality compares the two handles' current Slot
contents — it holds exactly when the contents are equal — and the two
sibling handles of one pair read the one Slot they share, so they compare
equal in every reachable state of the pair. -/
theorem handshake_eq_compares_contents {T : Type} [DecidableEq T] :
    (∀ a b : Option T, handshake_eq a b = true ↔ a = b) ∧
    (∀ s : PairState T, Reachable s →
      handshake_eq s.slot s.slot = true) := by
  constructor
  · intro a b
    simp [handshake_eq]
  · intro s _
    simp [handshake_eq]

theorem handshake_eq_compares_contents_witness :
    (handshake_eq (some 3 : Option Nat) (some 3) = true ↔
      (some 3 : Option Nat) = some 3) ∧
    handshake_eq (PairState.start (T := Nat)).slot
      (PairState.start (T := Nat)).slot = true :=
  ⟨(handshake_eq_compares_contents (T := Nat)).1 (some 3) (some 3),
   (handshake_eq_compares_contents (T := Nat)).2 PairState.start
     Relation.ReflTransGen.refl⟩

end Handshake
